import Mathlib

/-!
Shallow embedding of `pymarketapi` (`src/api.py`): the `MarketItem`,
`MarketPreferences` and `MarketApi` classes of a MercadoPago marketplace
client, together with theorems settling the specification claims.

Conventions of the embedding:
* Python exceptions become the `PyError` sum: `MPException` (the library's
  own error class, carrying either an HTTP status code or a message),
  `AttributeError` (attribute read on an object that never set it) and
  `KeyError` / `TypeError` for dict subscription and string concatenation.
* JSON values are the inductive `Json`; Python dicts kept by the code are
  association lists.
* HTTP is explicit: a method that performs a POST takes the `HttpResponse`
  the remote service would answer with, and returns, besides its result and
  the updated client, the list of `HttpRequest`s it actually issued.
* `datetime.datetime.now()` is a parameter `now : Int` (Unix seconds).
* Numeric payload fields (`unit_price`, `marketplace_fee`, `quantity`) are
  carried opaquely as `Int`: the code never computes with them, it only
  stores and serializes them.
-/

/-- The library's single exception class `MPException`: its `code` field is
either an HTTP status code or a descriptive message string. -/
inductive MPError where
  | status (code : Nat)
  | msg (s : String)
deriving DecidableEq, Repr

/-- Errors a call into the library can raise: the library's `MPException`,
or one of the Python runtime errors the code can hit (`AttributeError` for
an instance attribute that was never assigned, `KeyError` for a missing
dict key, `TypeError` for `str + non-str`). -/
inductive PyError where
  | mp (e : MPError)
  | attributeError (name : String)
  | keyError (key : String)
  | typeError (s : String)
deriving DecidableEq, Repr

/-- `true` exactly when the outcome is a raised `MPException`. -/
def isMPException {α : Type} : Except PyError α → Bool
  | .error (.mp _) => true
  | _ => false

/-- JSON values (`response.json()` results and serialized payloads). -/
inductive Json where
  | null
  | str (s : String)
  | int (n : Int)
  | arr (elems : List Json)
  | obj (fields : List (String × Json))

/-- Keys of a JSON object (empty for non-objects). -/
def Json.objKeys : Json → List String
  | .obj fields => fields.map (·.1)
  | _ => []

/-- `d.get(key)` on a Python dict modelled as an association list of JSON
fields: the stored value, or `Json.null` (Python `None`) when absent. -/
def jsonGet (fields : List (String × Json)) (key : String) : Json :=
  match fields.find? (·.1 == key) with
  | some kv => kv.2
  | none => .null

/-- `d[key]` on a Python dict of JSON fields: raises `KeyError` when the key
is absent. -/
def jsonSubscript (fields : List (String × Json)) (key : String) :
    Except PyError Json :=
  match fields.find? (·.1 == key) with
  | some kv => .ok kv.2
  | none => .error (.keyError key)

/-- Python truthiness of a JSON value (`None`, `""`, `0`, `[]`, `{}` are
falsy). -/
def jsonTruthy : Json → Bool
  | .null => false
  | .str s => s ≠ ""
  | .int n => n ≠ 0
  | .arr elems => !elems.isEmpty
  | .obj fields => !fields.isEmpty

/-- Python truthiness of an optional string (`None` and `""` are falsy). -/
def strTruthy : Option String → Bool
  | none => false
  | some s => s ≠ ""

/-- `a or b` for an optional string `a`: `b` when `a` is falsy. -/
def pyOrStr (a : Option String) (b : String) : String :=
  match a with
  | some s => if s = "" then b else s
  | none => b

/-- Module-level constant `URL_AUTH`. -/
def URL_AUTH : String := "https://api.mercadolibre.com/oauth/token"

/-- Module-level constant `URL_AUTHORIZATION`. -/
def URL_AUTHORIZATION : String := "https://auth.mercadolibre.com.ar/authorization"

/-- Module-level constant `URL_PREFERENCES`. -/
def URL_PREFERENCES : String := "https://api.mercadolibre.com/checkout/preferences"

/-- Module-level constant `CURRENCY_ID` (the process-wide default currency). -/
def CURRENCY_ID : String := "ARS"

/-- Module-level constant `MARKETPLACE_FEE` (`float(5.00)`; carried as the
integer 5, the code never computes with it). -/
def MARKETPLACE_FEE : Int := 5

/-- What an item's `market_preferences` back-reference is used for: the code
only ever reads `self.market_preferences.get_currency()` through it, which
returns the owning set's `default_currency_id`. The reference is therefore
modelled by that datum. -/
structure MarketPreferencesRef where
  default_currency_id : String
deriving DecidableEq, Repr

/-- The `MarketItem` class: one purchasable line. `currency_id` is `None` by
default; `market_preferences` is the owning-set back-reference, `None` until
the item is added to a `MarketPreferences`. -/
structure MarketItem where
  id : Int
  title : String
  description : String
  unit_price : Int
  picture_url : String
  quantity : Int := 1
  currency_id : Option String := none
  market_preferences : Option MarketPreferencesRef := none

/-- `MarketItem.get_currency`: the item's own truthy `currency_id`, else the
owning set's default currency (`self.market_preferences.get_currency()`),
else `MPException`. An owning-set object is always truthy in Python, so the
branches reduce to this match. -/
def MarketItem.get_currency (item : MarketItem) : Except PyError String :=
  match strTruthy item.currency_id, item.market_preferences with
  | false, none =>
    .error (.mp (.msg ("El producto no tiene ninguna moneda configurada, " ++
      "debe setear `currency_id` en el producto o en el MarketPreferences")))
  | false, some ref => .ok ref.default_currency_id
  | true, _ => .ok (item.currency_id.getD "")

/-- `MarketItem.get_currency_id` delegates to `get_currency`. -/
def MarketItem.get_currency_id (item : MarketItem) : Except PyError String :=
  item.get_currency

/-- `MarketItem.get_json`: the item's serialization; fails when the currency
cannot be resolved. -/
def MarketItem.get_json (item : MarketItem) : Except PyError Json :=
  match item.get_currency_id with
  | .error e => .error e
  | .ok currency => .ok (.obj [
      ("id", .int item.id),
      ("title", .str item.title),
      ("description", .str item.description),
      ("quantity", .int item.quantity),
      ("unit_price", .int item.unit_price),
      ("currency_id", .str currency),
      ("picture_url", .str item.picture_url)])

/-- The `MarketPreferences` class, viewed through one instance's effective
attributes (the lists and dicts the instance's reads and writes resolve to).
The process-wide sharing of the class-level default containers is modelled
separately by `PrefWorld` below. -/
structure MarketPreferences where
  items : List MarketItem := []
  payer : List (String × Json) := []
  default_currency_id : String := CURRENCY_ID
  marketplace_fee : Int := MARKETPLACE_FEE
  back_urls : List (String × String) :=
    [("failure", ""), ("pending", ""), ("success", "")]
  registered_items : List Int := []

/-- `MarketPreferences.get_items`. -/
def MarketPreferences.get_items (p : MarketPreferences) : List MarketItem :=
  p.items

/-- `MarketPreferences.get_currency`: the set's default currency. -/
def MarketPreferences.get_currency (p : MarketPreferences) : String :=
  p.default_currency_id

/-- `MarketPreferences.set_item`: duplicate-id guard, then append the item,
register its id, and point its back-reference at this set. Returns
`get_items()` together with the updated instance. (The `isinstance`
check of the source is subsumed by typing.) -/
def MarketPreferences.set_item (p : MarketPreferences) (item : MarketItem)
    (force_append : Bool := false) :
    Except PyError (List MarketItem × MarketPreferences) :=
  if item.id ∈ p.registered_items ∧ force_append = false then
    .error (.mp (.msg ("El item ID " ++ toString item.id ++ " ya existe")))
  else
    let item' := { item with
      market_preferences := some ⟨p.default_currency_id⟩ }
    let p' := { p with
      items := p.items ++ [item'],
      registered_items := p.registered_items ++ [item.id] }
    .ok (p'.get_items, p')

/-- `MarketPreferences.remove_item`: not-found guard, then rebuild `items`
and `registered_items` without the entries matching `id`. Returns
`get_items()` together with the updated instance. -/
def MarketPreferences.remove_item (p : MarketPreferences) (id : Int) :
    Except PyError (List MarketItem × MarketPreferences) :=
  if ¬ id ∈ p.registered_items then
    .error (.mp (.msg ("El item ID " ++ toString id ++ " no existe")))
  else
    let p' := { p with
      items := p.get_items.filter (fun item => ¬ item.id = id),
      registered_items := p.registered_items.filter (fun x => ¬ x = id) }
    .ok (p'.get_items, p')

/-- `MarketPreferences.get_external_reference`: the current Unix timestamp,
seconds, formatted as a string (`now.strftime('%s')`). -/
def MarketPreferences.get_external_reference (_p : MarketPreferences)
    (now : Int) : String :=
  toString now

/-- `MarketPreferences.get_payer`. -/
def MarketPreferences.get_payer (p : MarketPreferences) :
    List (String × Json) :=
  p.payer

/-- `MarketPreferences.get_marketplace_fee`. -/
def MarketPreferences.get_marketplace_fee (p : MarketPreferences) : Int :=
  p.marketplace_fee

/-- `MarketPreferences.get_json`: the payload submitted to the preferences
endpoint — the items' serializations in order, the external reference, the
payer and the marketplace fee (and nothing else). -/
def MarketPreferences.get_json (p : MarketPreferences) (now : Int) :
    Except PyError Json :=
  match p.get_items.mapM MarketItem.get_json with
  | .error e => .error e
  | .ok itemJsons => .ok (.obj [
      ("items", .arr itemJsons),
      ("external_reference", .str (p.get_external_reference now)),
      ("payer", .obj p.get_payer),
      ("marketplace_fee", .int p.get_marketplace_fee)])

/-- A form-encoded or JSON POST body. -/
inductive RequestPayload where
  | form (args : List (String × String))
  | json (body : Json)

/-- A POST issued by the client. -/
structure HttpRequest where
  url : String
  payload : RequestPayload
  headers : List (String × String)

/-- The remote service's answer to a POST: HTTP status and parsed body. -/
structure HttpResponse where
  status_code : Nat
  body : Json

/-- `dict.update` for one key on an association list kept in insertion
order. -/
def dictSet (d : List (String × String)) (key value : String) :
    List (String × String) :=
  if d.any (·.1 == key) then
    d.map (fun kv => if kv.1 == key then (key, value) else kv)
  else
    d ++ [(key, value)]

/-- `d.copy()` followed by `d.update(upd)`. -/
def dictUpdate (d upd : List (String × String)) : List (String × String) :=
  upd.foldl (fun acc kv => dictSet acc kv.1 kv.2) d

/-- `args[key]` for `action_url % args`-style interpolation: `KeyError` when
the key is absent. -/
def dictSubscript (d : List (String × String)) (key : String) :
    Except PyError String :=
  match d.find? (·.1 == key) with
  | some kv => .ok kv.2
  | none => .error (.keyError key)

/-- Class attribute `MarketApi.default_headers`. -/
def default_headers : List (String × String) :=
  [("accept", "application/json"),
   ("content-type", "application/x-www-form-urlencoded")]

/-- The `MarketApi` class. `access_token` and `default_client_args` are
assigned during `__init__`; `seller_access_token` is `none` while the
instance attribute was never assigned (reading it then is an
`AttributeError`); `seller_preferences` is the class attribute `None`
until a successful submission stores a mapping. -/
structure MarketApi where
  client_id : String
  client_secret : String
  redirect_uri : String
  default_client_args : List (String × String)
  access_token : Json
  seller_access_token : Option Json := none
  seller_preferences : Option Json := none

/-- `MarketApi._call_api`: only HTTP 200 and 201 are success; any other
status raises `MPException(status_code)`; on success the parsed JSON body
is returned. -/
def call_api (response : HttpResponse) : Except PyError Json :=
  if response.status_code = 200 ∨ response.status_code = 201 then
    .ok response.body
  else
    .error (.mp (.status response.status_code))

/-- `MarketApi.__init__` + `_connect`: store the credentials, build
`default_client_args`, POST a `client_credentials` grant to `URL_AUTH` and
store the response as `access_token`. A non-success status makes
construction fail. -/
def MarketApi.init (client_id client_secret redirect_uri : String)
    (response : HttpResponse) :
    Except PyError MarketApi × List HttpRequest :=
  let default_client_args :=
    [("client_id", client_id), ("client_secret", client_secret)]
  let args := dictUpdate default_client_args
    [("grant_type", "client_credentials")]
  let request : HttpRequest := ⟨URL_AUTH, .form args, default_headers⟩
  match call_api response with
  | .error e => (.error e, [request])
  | .ok j =>
    (.ok { client_id, client_secret, redirect_uri, default_client_args,
           access_token := j }, [request])

/-- `MarketApi.get_client_code_link`: build the authorization URL by
interpolating `client_id`, `response_type` and `redirect_uri` (falling back
to the constructor's) into the fixed `URL_AUTHORIZATION` template with the
constant `platform_id=mp`. Pure string construction: no request is issued
and the instance is not touched. -/
def MarketApi.get_client_code_link (api : MarketApi)
    (redirect_uri : Option String := none)
    (response_type : String := "code") : Except PyError String := do
  let args := dictUpdate api.default_client_args
    [("redirect_uri", pyOrStr redirect_uri api.redirect_uri),
     ("response_type", response_type)]
  let cid ← dictSubscript args "client_id"
  let rt ← dictSubscript args "response_type"
  let ru ← dictSubscript args "redirect_uri"
  pure (URL_AUTHORIZATION ++ "?client_id=" ++ cid ++ "&response_type=" ++ rt
    ++ "&platform_id=mp&redirect_uri=" ++ ru)

/-- `MarketApi.get_seller_access_token`: POST an `authorization_code` grant;
on success store and return the seller token mapping. -/
def MarketApi.get_seller_access_token (api : MarketApi) (code : String)
    (redirect_uri : Option String) (response : HttpResponse) :
    Except PyError Json × MarketApi × List HttpRequest :=
  let args := dictUpdate api.default_client_args
    [("grant_type", "authorization_code"),
     ("redirect_uri", pyOrStr redirect_uri api.redirect_uri),
     ("code", code)]
  let request : HttpRequest := ⟨URL_AUTH, .form args, default_headers⟩
  match call_api response with
  | .error e => (.error e, api, [request])
  | .ok j => (.ok j, { api with seller_access_token := some j }, [request])

/-- The token sent with a refresh: the truthy `access_token` argument, else
`self.seller_access_token['refresh_token']` (an `AttributeError` when no
seller token was ever stored, a `KeyError` when the stored mapping has no
`refresh_token`, a `TypeError` when the stored value at that key is not a
string or the mapping is not an object). -/
def refreshTokenArg (api : MarketApi) (access_token : Option String) :
    Except PyError String :=
  match access_token with
  | some t =>
    if t = "" then refreshTokenStored api else .ok t
  | none => refreshTokenStored api
where
  refreshTokenStored (api : MarketApi) : Except PyError String :=
    match api.seller_access_token with
    | none => .error (.attributeError "seller_access_token")
    | some (.obj fields) =>
      match jsonSubscript fields "refresh_token" with
      | .ok (.str s) => .ok s
      | .ok _ => .error (.typeError "refresh_token is not a string")
      | .error e => .error e
    | some _ => .error (.typeError "seller_access_token is not a dict")

/-- `MarketApi.refresh_seller_access_token`: POST a `refresh_token` grant
with `refreshTokenArg`; on success store and return the new seller token
mapping. -/
def MarketApi.refresh_seller_access_token (api : MarketApi)
    (access_token : Option String) (response : HttpResponse) :
    Except PyError Json × MarketApi × List HttpRequest :=
  match refreshTokenArg api access_token with
  | .error e => (.error e, api, [])
  | .ok tok =>
    let args := dictUpdate api.default_client_args
      [("grant_type", "refresh_token"), ("refresh_token", tok)]
    let request : HttpRequest := ⟨URL_AUTH, .form args, default_headers⟩
    match call_api response with
    | .error e => (.error e, api, [request])
    | .ok j => (.ok j, { api with seller_access_token := some j }, [request])

/-- `self.seller_access_token['access_token']` as read by
`set_buy_preferences`, including the failure modes of the raw attribute and
dict accesses. -/
def sellerAccessTokenStr (api : MarketApi) : Except PyError String :=
  match api.seller_access_token with
  | none => .error (.attributeError "seller_access_token")
  | some (.obj fields) =>
    match jsonSubscript fields "access_token" with
    | .ok (.str s) => .ok s
    | .ok _ => .error (.typeError "access_token is not a string")
    | .error e => .error e
  | some _ => .error (.typeError "seller_access_token is not a dict")

/-- `MarketApi.set_buy_preferences`: serialize the preference set, then POST
it as JSON to the preferences endpoint with the seller access token as a
query credential; on success store and return the preference resource. The
serialization and the token read happen before the request is built, so
their failures issue no request. (The `isinstance` check of the source is
subsumed by typing.) -/
def MarketApi.set_buy_preferences (api : MarketApi)
    (preferences : MarketPreferences) (now : Int) (response : HttpResponse) :
    Except PyError Json × MarketApi × List HttpRequest :=
  let headers := dictUpdate default_headers
    [("content-type", "application/json")]
  match preferences.get_json now with
  | .error e => (.error e, api, [])
  | .ok preferences_data =>
    match sellerAccessTokenStr api with
    | .error e => (.error e, api, [])
    | .ok tok =>
      let request : HttpRequest :=
        ⟨URL_PREFERENCES ++ "?access_token=" ++ tok,
         .json preferences_data, headers⟩
      match call_api response with
      | .error e => (.error e, api, [request])
      | .ok j => (.ok j, { api with seller_preferences := some j }, [request])

/-- `MarketApi.get_seller_prefereces` (sic). -/
def MarketApi.get_seller_prefereces (api : MarketApi) : Option Json :=
  api.seller_preferences

/-- `MarketApi.get_preference_attr`: raise `MPException` while the stored
`seller_preferences` is falsy (still `None`, or an empty mapping); otherwise
return `seller_preferences.get(key)` — the stored value, or `None` for an
absent key. (`.get` on a non-dict resource would be an `AttributeError`.) -/
def MarketApi.get_preference_attr (api : MarketApi) (key : String) :
    Except PyError Json :=
  match api.seller_preferences with
  | none =>
    .error (.mp (.msg ("La instancia aun no tiene ningún " ++
      "`seller_preferences`, primero llamar a `set_buy_preferences`")))
  | some resource =>
    if jsonTruthy resource = false then
      .error (.mp (.msg ("La instancia aun no tiene ningún " ++
        "`seller_preferences`, primero llamar a `set_buy_preferences`")))
    else
      match resource with
      | .obj fields => .ok (jsonGet fields key)
      | _ => .error (.attributeError "get")

/-- `MarketApi.get_preference_id`. -/
def MarketApi.get_preference_id (api : MarketApi) : Except PyError Json :=
  api.get_preference_attr "id"

/-- Python attribute storage of one `MarketPreferences` instance. `none`
means the instance never assigned that attribute itself, so reads fall
through to the class attribute; `remove_item` is the only method that
assigns `self.items` / `self.registered_items` (list comprehensions bound
to fresh lists), while `set_item` mutates whichever list the read resolves
to, in place. -/
structure PrefInstance where
  instItems : Option (List MarketItem) := none
  instRegistered : Option (List Int) := none

/-- The process-wide picture of `MarketPreferences`: the class-level default
containers (`MarketPreferences.items` and `MarketPreferences.registered_items`,
mutable lists created once at class definition time) together with the
instances created so far, named by their index. -/
structure PrefWorld where
  classItems : List MarketItem := []
  classRegistered : List Int := []
  insts : List PrefInstance := []

/-- `MarketPreferences()` — `__init__` is `pass`, so the new instance has no
instance attributes of its own. Returns the new instance's index. -/
def PrefWorld.newPreferences (w : PrefWorld) : PrefWorld × Nat :=
  ({ w with insts := w.insts ++ [{}] }, w.insts.length)

/-- What `self.items` resolves to for instance `i`. -/
def PrefWorld.effItems (w : PrefWorld) (i : Nat) : List MarketItem :=
  match w.insts[i]? with
  | some inst => inst.instItems.getD w.classItems
  | none => w.classItems

/-- What `self.registered_items` resolves to for instance `i`. -/
def PrefWorld.effRegistered (w : PrefWorld) (i : Nat) : List Int :=
  match w.insts[i]? with
  | some inst => inst.instRegistered.getD w.classRegistered
  | none => w.classRegistered

/-- `get_items()` on instance `i`. -/
def PrefWorld.get_items (w : PrefWorld) (i : Nat) : List MarketItem :=
  w.effItems i

/-- `self.items.append(x)` on instance `i`: mutates the instance's own list
when it has one, else the class-level list shared by every instance without
one. -/
def PrefWorld.appendItem (w : PrefWorld) (i : Nat) (item : MarketItem) :
    PrefWorld :=
  match w.insts[i]? with
  | some inst =>
    match inst.instItems with
    | some l =>
      { w with insts := w.insts.set i { inst with instItems := some (l ++ [item]) } }
    | none => { w with classItems := w.classItems ++ [item] }
  | none => w

/-- `self.registered_items.append(x)` on instance `i`. -/
def PrefWorld.appendRegistered (w : PrefWorld) (i : Nat) (id : Int) :
    PrefWorld :=
  match w.insts[i]? with
  | some inst =>
    match inst.instRegistered with
    | some l =>
      { w with insts := w.insts.set i { inst with instRegistered := some (l ++ [id]) } }
    | none => { w with classRegistered := w.classRegistered ++ [id] }
  | none => w

/-- `set_item` on instance `i` of the world: same guard as
`MarketPreferences.set_item`, but the appends land on whichever lists the
instance's attribute reads resolve to. (`default_currency_id` is the class
attribute `CURRENCY_ID` — no code ever shadows it.) -/
def PrefWorld.set_item (w : PrefWorld) (i : Nat) (item : MarketItem)
    (force_append : Bool := false) : Except PyError PrefWorld :=
  if item.id ∈ w.effRegistered i ∧ force_append = false then
    .error (.mp (.msg ("El item ID " ++ toString item.id ++ " ya existe")))
  else
    let item' := { item with market_preferences := some ⟨CURRENCY_ID⟩ }
    .ok ((w.appendItem i item').appendRegistered i item.id)

/-- A concrete item used by witnesses and counterexamples. -/
def sampleItem : MarketItem :=
  { id := 1, title := "Prod", description := "Desc", unit_price := 10,
    picture_url := "http://pic/" }

/-- A second concrete item with a different id. -/
def sampleItem2 : MarketItem :=
  { sampleItem with id := 2, title := "Prod2" }

/-- A preference set already holding one registered copy of `sampleItem`
(the state `set_item sampleItem` reaches from a fresh set). -/
def dupPrefs : MarketPreferences :=
  { items := [{ sampleItem with market_preferences := some ⟨CURRENCY_ID⟩ }],
    registered_items := [1] }

/-- A freshly constructed client: client-credentials token stored, no seller
token yet. -/
def sampleApi : MarketApi :=
  { client_id := "123", client_secret := "secret",
    redirect_uri := "http://x/",
    default_client_args := [("client_id", "123"), ("client_secret", "secret")],
    access_token := .obj [("access_token", .str "APP-TOKEN")] }

/-- A seller token mapping as returned by the authorization-code exchange. -/
def sellerToken : Json :=
  .obj [("access_token", .str "APP_USR-1"), ("refresh_token", .str "TG-9")]

/-- `sampleApi` after a successful authorization-code exchange. -/
def sampleSellerApi : MarketApi :=
  { sampleApi with seller_access_token := some sellerToken }

/-- C7: the single HTTP helper `_call_api` treats exactly statuses 200 and
201 as success — any other status raises `MPException` carrying exactly the
response's status code, and 200/201 return the parsed JSON body. -/
theorem c7_call_api_success_statuses (status : Nat) (body : Json) :
    ((status = 200 ∨ status = 201) →
      call_api ⟨status, body⟩ = .ok body) ∧
    (¬ (status = 200 ∨ status = 201) →
      call_api ⟨status, body⟩ = .error (.mp (.status status))) := by
  constructor
  · intro h
    simp [call_api, h]
  · intro h
    simp [call_api, h]

/-- C7 witness: status 201 succeeds with the body, status 404 raises
`MPException(404)`. -/
theorem c7_witness :
    call_api ⟨201, .null⟩ = .ok .null ∧
    call_api ⟨404, .null⟩ = .error (.mp (.status 404)) :=
  ⟨(c7_call_api_success_statuses 201 .null).1 (Or.inr rfl),
   (c7_call_api_success_statuses 404 .null).2 (by decide)⟩

/-- C5: `get_currency` returns the item's own currency when that is set
(truthy); with no own currency it returns the owning set's default currency
when the item belongs to one, and raises the library's configuration
`MPException` when it does not. -/
theorem c5_get_currency_resolution (item : MarketItem) :
    (∀ c, item.currency_id = some c → c ≠ "" →
      item.get_currency = .ok c) ∧
    (∀ ref, strTruthy item.currency_id = false →
      item.market_preferences = some ref →
      item.get_currency = .ok ref.default_currency_id) ∧
    (strTruthy item.currency_id = false → item.market_preferences = none →
      isMPException item.get_currency = true) := by
  refine ⟨?_, ?_, ?_⟩
  · intro c hc hne
    have ht : strTruthy item.currency_id = true := by
      simp [strTruthy, hc, hne]
    unfold MarketItem.get_currency
    rw [ht, hc]
    cases item.market_preferences <;> rfl
  · intro ref hf hm
    unfold MarketItem.get_currency
    rw [hf, hm]
  · intro hf hm
    unfold MarketItem.get_currency
    rw [hf, hm]
    rfl

/-- C5 witness: an item with explicit currency "USD" resolves to "USD"; the
same item owned by a set whose default is "ARS" resolves to "ARS"; with
neither, `get_currency` raises the library's `MPException`. -/
theorem c5_witness :
    ({ sampleItem with currency_id := some "USD" } : MarketItem).get_currency
        = .ok "USD" ∧
    ({ sampleItem with
        market_preferences := some ⟨"ARS"⟩ } : MarketItem).get_currency
        = .ok "ARS" ∧
    isMPException sampleItem.get_currency = true :=
  ⟨(c5_get_currency_resolution _).1 "USD" rfl (by decide),
   (c5_get_currency_resolution _).2.1 ⟨"ARS"⟩ rfl rfl,
   (c5_get_currency_resolution _).2.2 rfl rfl⟩

/-- C3: `set_item` raises the duplicate-id `MPException` when the item's id
is already registered and `force_append` is false (the instance untouched:
the guard precedes every mutation); otherwise it appends the item with its
back-reference pointed at this set, registers its id, and returns the
current item list; with `force_append` on a registered id, the returned
list holds at least two entries with that id. -/
theorem c3_set_item_duplicate_guard (p : MarketPreferences)
    (item : MarketItem) :
    (item.id ∈ p.registered_items →
      isMPException (p.set_item item false) = true) ∧
    (∀ force : Bool, (item.id ∈ p.registered_items → force = true) →
      p.set_item item force = .ok
        (p.items ++
          [{ item with market_preferences := some ⟨p.default_currency_id⟩ }],
         { p with
            items := p.items ++
              [{ item with
                  market_preferences := some ⟨p.default_currency_id⟩ }],
            registered_items := p.registered_items ++ [item.id] })) ∧
    (∀ l p', p.registered_items = p.items.map MarketItem.id →
      item.id ∈ p.registered_items →
      p.set_item item true = .ok (l, p') →
      2 ≤ l.countP (fun j => j.id == item.id)) := by
  refine ⟨?_, ?_, ?_⟩
  · intro hmem
    unfold MarketPreferences.set_item
    rw [if_pos ⟨hmem, rfl⟩]
    rfl
  · intro force hforce
    unfold MarketPreferences.set_item
    rw [if_neg]
    · rfl
    · rintro ⟨hmem, hfalse⟩
      rw [hforce hmem] at hfalse
      exact Bool.noConfusion hfalse
  · intro l p' hreg hmem heq
    unfold MarketPreferences.set_item at heq
    rw [if_neg (by rintro ⟨_, h⟩; exact Bool.noConfusion h)] at heq
    have hl : l = p.items ++
        [{ item with market_preferences := some ⟨p.default_currency_id⟩ }] := by
      injection heq with h
      exact congrArg Prod.fst h.symm
    subst hl
    rw [hreg] at hmem
    obtain ⟨j, hj, hjid⟩ := List.mem_map.mp hmem
    have h1 : 0 < p.items.countP (fun j => j.id == item.id) :=
      List.countP_pos_iff.mpr ⟨j, hj, by simp [hjid]⟩
    rw [List.countP_append]
    have h2 : List.countP (fun j => j.id == item.id)
        [{ item with market_preferences := some ⟨p.default_currency_id⟩ }]
          = 1 := by
      simp [List.countP_cons]
    omega

/-- C3 witness: on a set already holding item id 1, adding another item with
id 1 raises without the flag; with the flag the returned list counts two
entries with id 1; and adding to a fresh set appends and registers. -/
theorem c3_witness :
    isMPException (dupPrefs.set_item sampleItem false) = true ∧
    (({} : MarketPreferences).set_item sampleItem false = .ok
      ([{ sampleItem with market_preferences := some ⟨CURRENCY_ID⟩ }],
       { items := [{ sampleItem with
            market_preferences := some ⟨CURRENCY_ID⟩ }],
         registered_items := [1] })) ∧
    2 ≤ (dupPrefs.items ++
      [{ sampleItem with
          market_preferences := some ⟨CURRENCY_ID⟩ }]).countP
        (fun j : MarketItem => j.id == sampleItem.id) :=
  ⟨(c3_set_item_duplicate_guard dupPrefs sampleItem).1 (by decide),
   (c3_set_item_duplicate_guard {} sampleItem).2.1 false (by intro h; cases h),
   (c3_set_item_duplicate_guard dupPrefs sampleItem).2.2 _ _ rfl (by decide)
     rfl⟩

/-- The item list after: fresh set, add `sampleItem`, add it again with
`force_append=True`, then `remove_item(1)`. -/
def removeAfterDuplicate : Except PyError (List MarketItem) := do
  let r1 ← ({} : MarketPreferences).set_item sampleItem false
  let r2 ← r1.2.set_item sampleItem true
  let r3 ← r2.2.remove_item 1
  pure r3.1

/-- C4 counterexample: with two entries of id 1 present (the second added
through `force_append`), `remove_item(1)` empties the list — the list
comprehension drops every matching item, it does not keep the second
entry intact as the claim states. -/
theorem c4_counterexample : removeAfterDuplicate = .ok [] := rfl

/-- C4 (amended): `remove_item` raises the not-found `MPException` when the
id is not registered (the instance untouched: the guard precedes every
mutation); when it is registered, it rebuilds `items` without every item
bearing that id and `registered_items` without every registration of it. -/
theorem c4_remove_item_filters_all (p : MarketPreferences) (x : Int) :
    (¬ x ∈ p.registered_items →
      isMPException (p.remove_item x) = true) ∧
    (x ∈ p.registered_items →
      p.remove_item x = .ok
        (p.items.filter (fun item => ¬ item.id = x),
         { p with
            items := p.items.filter (fun item => ¬ item.id = x),
            registered_items :=
              p.registered_items.filter (fun y => ¬ y = x) })) := by
  constructor
  · intro hmem
    unfold MarketPreferences.remove_item
    rw [if_pos hmem]
    rfl
  · intro hmem
    unfold MarketPreferences.remove_item
    rw [if_neg (by simpa using hmem)]
    rfl

/-- C4 witness: removing id 5 from a fresh set raises; removing id 1 from a
set holding it yields the filtered list and registrations. -/
theorem c4_witness :
    isMPException (({} : MarketPreferences).remove_item 5) = true ∧
    dupPrefs.remove_item 1 = .ok
      (dupPrefs.items.filter (fun item => ¬ item.id = 1),
       { dupPrefs with
          items := dupPrefs.items.filter (fun item => ¬ item.id = 1),
          registered_items :=
            dupPrefs.registered_items.filter (fun y => ¬ y = 1) }) :=
  ⟨(c4_remove_item_filters_all {} 5).1 (by decide),
   (c4_remove_item_filters_all dupPrefs 1).2 (by decide)⟩

/-- What the second of two freshly created `MarketPreferences` instances
observes through `get_items()` after an item is added to the first one. -/
def secondInstanceView : Except PyError (List MarketItem) :=
  let w0 : PrefWorld := {}
  let (w1, _first) := w0.newPreferences
  let (w2, _second) := w1.newPreferences
  (w2.set_item 0 sampleItem false).map (fun w3 => w3.get_items 1)

/-- C2: the containers are class attributes mutated in place, so adding an
item to the first of two freshly constructed instances makes it observable
through the second instance's `get_items()` — the containers are not
freshly allocated per instance. -/
theorem c2_shared_class_containers :
    secondInstanceView =
      .ok [{ sampleItem with market_preferences := some ⟨CURRENCY_ID⟩ }] :=
  rfl

/-- The outcome of submitting a valid empty preference set on a client that
never stored a seller access token, together with the requests issued. -/
def unauthenticatedSubmit :
    Except PyError Json × MarketApi × List HttpRequest :=
  sampleApi.set_buy_preferences {} 0 ⟨201, .null⟩

/-- C1 counterexample: on a client with no stored seller token, `submit` of
a valid preference set fails with `AttributeError` on
`seller_access_token` — a Python runtime error, not the library's
`MPException` with a "not authenticated" message — though indeed no request
reaches the preferences endpoint. -/
theorem c1_counterexample :
    unauthenticatedSubmit.1 = .error (.attributeError "seller_access_token")
      ∧ isMPException unauthenticatedSubmit.1 = false
      ∧ unauthenticatedSubmit.2.2 = [] :=
  ⟨rfl, rfl, rfl⟩

/-- C1 (amended): on a client with no stored seller token, `submit` of a
preference set that serializes successfully fails before any request is
issued — with `AttributeError` on the never-assigned `seller_access_token`
attribute rather than the library's `MPException` — and leaves the client
untouched. -/
theorem c1_submit_unauthenticated (api : MarketApi)
    (preferences : MarketPreferences) (now : Int) (response : HttpResponse)
    (body : Json)
    (htok : api.seller_access_token = none)
    (hser : preferences.get_json now = .ok body) :
    api.set_buy_preferences preferences now response =
      (.error (.attributeError "seller_access_token"), api, []) := by
  unfold MarketApi.set_buy_preferences
  rw [hser]
  unfold sellerAccessTokenStr
  rw [htok]

/-- C1 witness: the concrete unauthenticated client and the empty preference
set. -/
theorem c1_witness :
    sampleApi.set_buy_preferences {} 0 ⟨200, .null⟩ =
      (.error (.attributeError "seller_access_token"), sampleApi, []) :=
  c1_submit_unauthenticated sampleApi {} 0 ⟨200, .null⟩
    (.obj [("items", .arr []), ("external_reference", .str "0"),
           ("payer", .obj []), ("marketplace_fee", .int 5)])
    rfl rfl

/-- C6: when the HTTP response status is not 2xx, every remote-calling
method fails with `MPException` carrying exactly that status code, and the
client's stored fields are untouched: construction returns no client at
all, and the exchange, refresh and submit methods return the client
exactly as it was (hypotheses on refresh and submit only require that the
method got as far as issuing the request). -/
theorem c6_non2xx_error_no_mutation (status : Nat)
    (h : ¬ (200 ≤ status ∧ status ≤ 299)) :
    (∀ cid cs ru body,
      (MarketApi.init cid cs ru ⟨status, body⟩).1
        = .error (.mp (.status status))) ∧
    (∀ api code ru body,
      (MarketApi.get_seller_access_token api code ru ⟨status, body⟩).1
          = .error (.mp (.status status)) ∧
      (MarketApi.get_seller_access_token api code ru ⟨status, body⟩).2.1
          = api) ∧
    (∀ api tok t body, refreshTokenArg api tok = .ok t →
      (MarketApi.refresh_seller_access_token api tok ⟨status, body⟩).1
          = .error (.mp (.status status)) ∧
      (MarketApi.refresh_seller_access_token api tok ⟨status, body⟩).2.1
          = api) ∧
    (∀ api preferences now body payload t,
      MarketPreferences.get_json preferences now = .ok payload →
      sellerAccessTokenStr api = .ok t →
      (MarketApi.set_buy_preferences api preferences now ⟨status, body⟩).1
          = .error (.mp (.status status)) ∧
      (MarketApi.set_buy_preferences api preferences now ⟨status, body⟩).2.1
          = api) := by
  have hcond : ¬ (status = 200 ∨ status = 201) := by omega
  have hcall : ∀ body, call_api ⟨status, body⟩
      = .error (.mp (.status status)) := by
    intro body
    unfold call_api
    rw [if_neg hcond]
  refine ⟨?_, ?_, ?_, ?_⟩
  · intro cid cs ru body
    simp only [MarketApi.init, hcall]
  · intro api code ru body
    constructor <;> simp only [MarketApi.get_seller_access_token, hcall]
  · intro api tok t body hre
    constructor <;>
      simp only [MarketApi.refresh_seller_access_token, hre, hcall]
  · intro api preferences now body payload t hser hsat
    constructor <;>
      simp only [MarketApi.set_buy_preferences, hser, hsat, hcall]

/-- C6 witness: HTTP 500 on construction, code exchange, refresh and submit
of the concrete seller-authenticated client. -/
theorem c6_witness :
    (MarketApi.init "123" "secret" "http://x/" ⟨500, .null⟩).1
        = .error (.mp (.status 500)) ∧
    (sampleApi.get_seller_access_token "TG-1" none ⟨500, .null⟩).1
        = .error (.mp (.status 500)) ∧
    (sampleSellerApi.refresh_seller_access_token none ⟨500, .null⟩).2.1
        = sampleSellerApi ∧
    (sampleSellerApi.set_buy_preferences {} 0 ⟨500, .null⟩).1
        = .error (.mp (.status 500)) := by
  have H := c6_non2xx_error_no_mutation 500 (by omega)
  exact ⟨H.1 "123" "secret" "http://x/" .null,
    (H.2.1 sampleApi "TG-1" none .null).1,
    (H.2.2.1 sampleSellerApi none "TG-9" .null rfl).2,
    (H.2.2.2 sampleSellerApi {} 0 .null
      (.obj [("items", .arr []), ("external_reference", .str "0"),
             ("payer", .obj []), ("marketplace_fee", .int 5)])
      "APP_USR-1" rfl rfl).1⟩

/-- A successful `mapM` over `Except` succeeds pointwise, in order. -/
theorem mapM_ok_pointwise {α β : Type} (f : α → Except PyError β) :
    ∀ (l : List α) (ys : List β), l.mapM f = .ok ys →
      List.Forall₂ (fun x y => f x = .ok y) l ys := by
  intro l
  induction l with
  | nil =>
    intro ys hok
    simp only [List.mapM_nil, pure, Except.pure, Except.ok.injEq] at hok
    subst hok
    exact .nil
  | cons x xs ih =>
    intro ys hok
    rw [List.mapM_cons] at hok
    cases hfx : f x with
    | error e =>
      rw [hfx] at hok
      simp only [bind, Except.bind] at hok
      exact Except.noConfusion hok
    | ok y =>
      rw [hfx] at hok
      cases hxs : xs.mapM f with
      | error e =>
        rw [hxs] at hok
        simp only [bind, Except.bind] at hok
        exact Except.noConfusion hok
      | ok tail =>
        rw [hxs] at hok
        simp only [bind, Except.bind, pure, Except.pure,
          Except.ok.injEq] at hok
        subst hok
        exact .cons hfx (ih tail hxs)

/-- C8: when every item's currency resolves, `get_json` returns a mapping
with exactly the keys `items`, `external_reference`, `payer` and
`marketplace_fee` (in particular neither `payment_methods` nor `back_urls`),
and the `items` array is the items' serializations in insertion order. -/
theorem c8_serialize_shape (p : MarketPreferences) (now : Int)
    (itemJsons : List Json)
    (h : p.get_items.mapM MarketItem.get_json = .ok itemJsons) :
    p.get_json now = .ok (.obj
      [("items", .arr itemJsons),
       ("external_reference", .str (toString now)),
       ("payer", .obj p.payer),
       ("marketplace_fee", .int p.marketplace_fee)]) ∧
    List.Forall₂ (fun item j => MarketItem.get_json item = .ok j)
      p.get_items itemJsons ∧
    (∀ body, p.get_json now = .ok body →
      body.objKeys =
        ["items", "external_reference", "payer", "marketplace_fee"]) := by
  have heq : p.get_json now = .ok (.obj
      [("items", .arr itemJsons),
       ("external_reference", .str (toString now)),
       ("payer", .obj p.payer),
       ("marketplace_fee", .int p.marketplace_fee)]) := by
    unfold MarketPreferences.get_json
    rw [h]
    rfl
  refine ⟨heq, mapM_ok_pointwise _ _ _ h, ?_⟩
  intro body hb
  rw [heq] at hb
  injection hb with hb
  subst hb
  rfl

/-- `sampleItem` with explicit currency "USD", owned by a set. -/
def usdItem : MarketItem :=
  { sampleItem with
      currency_id := some "USD", market_preferences := some ⟨CURRENCY_ID⟩ }

/-- `sampleItem2` with explicit currency "ARS", owned by a set. -/
def arsItem : MarketItem :=
  { sampleItem2 with
      currency_id := some "ARS", market_preferences := some ⟨CURRENCY_ID⟩ }

/-- A set of two items with explicit currencies, in insertion order. -/
def twoItemPrefs : MarketPreferences :=
  { items := [usdItem, arsItem], registered_items := [1, 2] }

/-- `sampleItem`'s serialization with currency "USD". -/
def sampleItemJson : Json := .obj
  [("id", .int 1), ("title", .str "Prod"), ("description", .str "Desc"),
   ("quantity", .int 1), ("unit_price", .int 10),
   ("currency_id", .str "USD"), ("picture_url", .str "http://pic/")]

/-- `sampleItem2`'s serialization with currency "ARS". -/
def sampleItem2Json : Json := .obj
  [("id", .int 2), ("title", .str "Prod2"), ("description", .str "Desc"),
   ("quantity", .int 1), ("unit_price", .int 10),
   ("currency_id", .str "ARS"), ("picture_url", .str "http://pic/")]

/-- C8 witness: the two-item set serializes to the four-key mapping with the
items' serializations in insertion order. -/
theorem c8_witness :
    twoItemPrefs.get_json 1700000000 = .ok (.obj
      [("items", .arr [sampleItemJson, sampleItem2Json]),
       ("external_reference", .str "1700000000"),
       ("payer", .obj []),
       ("marketplace_fee", .int 5)]) :=
  (c8_serialize_shape twoItemPrefs 1700000000
    [sampleItemJson, sampleItem2Json] rfl).1

/-- C9: `get_client_code_link` is pure string construction (its type takes
no response and returns no request and no updated client): for any client
whose `default_client_args` hold the constructor's credentials, the
resulting URL carries `client_id`, `response_type` and `redirect_uri` with
exactly the given values (the latter two defaulting to "code" and the
constructor's `redirect_uri`) plus the fixed `platform_id=mp`. -/
theorem c9_authorization_url (api : MarketApi) (cid cs : String)
    (h : api.default_client_args =
      [("client_id", cid), ("client_secret", cs)]) :
    (∀ ru rt, ru ≠ "" →
      api.get_client_code_link (some ru) rt = .ok
        (URL_AUTHORIZATION ++ "?client_id=" ++ cid ++ "&response_type=" ++ rt
          ++ "&platform_id=mp&redirect_uri=" ++ ru)) ∧
    (api.get_client_code_link none "code" = .ok
      (URL_AUTHORIZATION ++ "?client_id=" ++ cid ++ "&response_type="
        ++ "code" ++ "&platform_id=mp&redirect_uri="
        ++ api.redirect_uri)) := by
  constructor
  · intro ru rt hru
    have hor : pyOrStr (some ru) api.redirect_uri = ru := by
      simp [pyOrStr, hru]
    unfold MarketApi.get_client_code_link
    rw [h, hor]
    rfl
  · unfold MarketApi.get_client_code_link
    rw [h]
    rfl

/-- C9 witness: client_id "123", redirect_uri "http://x/", response_type
"code" produce the four query parameters with exactly those values; the
default call falls back to the constructor's redirect_uri. -/
theorem c9_witness :
    sampleApi.get_client_code_link (some "http://x/") "code" = .ok
      (URL_AUTHORIZATION ++ "?client_id=" ++ "123" ++ "&response_type="
        ++ "code" ++ "&platform_id=mp&redirect_uri=" ++ "http://x/") ∧
    sampleApi.get_client_code_link none "code" = .ok
      (URL_AUTHORIZATION ++ "?client_id=" ++ "123" ++ "&response_type="
        ++ "code" ++ "&platform_id=mp&redirect_uri="
        ++ sampleApi.redirect_uri) :=
  ⟨(c9_authorization_url sampleApi "123" "secret" rfl).1 "http://x/" "code"
      (by decide),
   (c9_authorization_url sampleApi "123" "secret" rfl).2⟩

/-- C10: `get_preference_attr` raises the premature-access `MPException`
exactly while the stored resource is falsy — both when nothing was ever
stored and when a successful submission stored an empty mapping — and on a
non-empty stored mapping returns the value at the key (`Json.null` when the
key is absent) without raising. -/
theorem c10_preference_attr_falsy_guard (api : MarketApi) (key : String) :
    (api.seller_preferences = none →
      isMPException (api.get_preference_attr key) = true) ∧
    (api.seller_preferences = some (.obj []) →
      isMPException (api.get_preference_attr key) = true) ∧
    (∀ fields, api.seller_preferences = some (.obj fields) → fields ≠ [] →
      api.get_preference_attr key = .ok (jsonGet fields key)) := by
  refine ⟨?_, ?_, ?_⟩
  · intro hsp
    unfold MarketApi.get_preference_attr
    rw [hsp]
    rfl
  · intro hsp
    unfold MarketApi.get_preference_attr
    rw [hsp]
    rfl
  · intro fields hsp hne
    have ht : jsonTruthy (.obj fields) = true := by
      simp [jsonTruthy, hne]
    simp only [MarketApi.get_preference_attr, hsp, ht]
    rfl

/-- A client holding a non-empty preference resource. -/
def resourceApi : MarketApi :=
  { sampleSellerApi with
      seller_preferences :=
        some (.obj [("id", .str "PREF-1"), ("collector_id", .int 77)]) }

/-- A client whose successful submission stored an empty mapping. -/
def emptyResourceApi : MarketApi :=
  { sampleSellerApi with seller_preferences := some (.obj []) }

/-- C10 witness: a never-submitted client raises; a client that stored an
empty mapping raises too; a non-empty resource yields the value at "id" and
`Json.null` at a missing key. -/
theorem c10_witness :
    isMPException (sampleApi.get_preference_attr "id") = true ∧
    isMPException (emptyResourceApi.get_preference_attr "id") = true ∧
    resourceApi.get_preference_attr "id" = .ok
      (jsonGet [("id", .str "PREF-1"), ("collector_id", .int 77)] "id") ∧
    resourceApi.get_preference_attr "marketplace" = .ok
      (jsonGet [("id", .str "PREF-1"), ("collector_id", .int 77)]
        "marketplace") :=
  ⟨(c10_preference_attr_falsy_guard sampleApi "id").1 rfl,
   (c10_preference_attr_falsy_guard emptyResourceApi "id").2.1 rfl,
   (c10_preference_attr_falsy_guard resourceApi "id").2.2 _ rfl
     (List.cons_ne_nil _ _),
   (c10_preference_attr_falsy_guard resourceApi "marketplace").2.2 _ rfl
     (List.cons_ne_nil _ _)⟩
